import Mathlib

/-!
Verification development for the expression sub-language of the
oferchen/inventory host-inventory tool.

The expression core lives in two near-identical revisions of the source:
the package revision (src/python/parser.py together with
src/python/expression_evaluation/expressions.py and
src/python/expression_evaluation/factories.py) and the monolithic revision
(src/python/inventory.py).  The definitions below are a shallow embedding
of that code: every definition is translated from the Python source, not
from the specification document.  Where the two revisions differ the
package revision is embedded as the primary one (it is the revision the
specification designates as current) and the divergent monolithic variant
is embedded alongside under an Inv suffix.

Modelling conventions, fixed once here:
- Python scalar values are the tagged type PyVal.  Numbers (Python int,
  float and bool in numeric position) are modelled as rationals; the
  embedding does not distinguish int from float, and treats an
  integer-valued number as a Python int where an operator (bitwise, shift)
  demands one.  Python lists arising inside this core only ever come from
  str.split, so lists are modelled as lists of strings.
- Python exceptions are the type PyErr, and fallible code returns
  Except PyErr.
- Character classes (word characters, digits, alphanumerics) follow their
  ASCII meaning; every string any claim exercises is ASCII.
-/

/-- Python exception kinds raised by the embedded code, each carrying the
message text of the corresponding Python exception.  The fuelExhausted
constructor is an artifact of the fuel-indexed recursion used for the
parser; the fuel supplied by the top-level entry points is always
sufficient, so no theorem below ever meets it. -/
inductive PyErr where
  | valueError (msg : String)
  | keyError (msg : String)
  | attributeError (msg : String)
  | typeError (msg : String)
  | indexError (msg : String)
  | zeroDivisionError (msg : String)
  | recursionError
  | fuelExhausted
deriving DecidableEq, Repr

/-- Tagged Python scalar value: boolean, number (int and float conflated,
modelled as a rational), text, None, or a list of strings (the only list
shape this core can build, via str.split). -/
inductive PyVal where
  | bool (b : Bool)
  | num (q : ℚ)
  | str (s : String)
  | pynone
  | strlist (l : List String)
deriving DecidableEq, Repr

/-- Single-quote character, built from its code point so that the source
file avoids a bare apostrophe inside string literals. -/
def squoteChar : Char := Char.ofNat 39

/-- Single-quote as a one-character string, used to reproduce Python
error-message texts. -/
def squote : String := String.singleton squoteChar

/-- Python repr of a message string as used by str(KeyError(msg)): the
message is wrapped in single quotes, or in double quotes when it itself
contains a single quote (escape sequences are not needed for any message
this code produces). -/
def pyReprStr (m : String) : String :=
  if m.data.contains squoteChar then "\"" ++ m ++ "\"" else squote ++ m ++ squote

/-- Python str(e) for the embedded exception kinds: KeyError displays the
repr of its argument, the others display their message verbatim. -/
def describePyErr : PyErr → String
  | .valueError m => m
  | .keyError m => pyReprStr m
  | .attributeError m => m
  | .typeError m => m
  | .indexError m => m
  | .zeroDivisionError m => m
  | .recursionError => "maximum recursion depth exceeded"
  | .fuelExhausted => "fuel exhausted"

section TokenizerEmbedding

/-- Word character of the tokenizer regex, i.e. Python regex class w
restricted to ASCII: letters, digits and underscore. -/
def isWordChar (c : Char) : Bool := c.isAlphanum || c == '_'

/-- Word-character test lifted to an optional character; none stands for a
string edge, which is never a word character. -/
def wordOpt : Option Char → Bool
  | none => false
  | some c => isWordChar c

/-- Python regex word boundary between two adjacent positions: it holds
exactly when the word-character statuses on the two sides differ. -/
def boundaryB (prev nxt : Option Char) : Bool := wordOpt prev != wordOpt nxt

/-- One attempt of the tokenizer regex at the current position.  Embeds
the pattern from Tokenizer.init in src/python/parser.py lines 81-83 (the
identical regex appears in src/python/inventory.py lines 221-223): a word
boundary, then the ordered alternation of one arithmetic operator
character, a greedy word run, a greedy greater/less comparison, the exact
two-character operators, or a parenthesis, then a word boundary.  Returns
the length of the match, or none when no alternative matches with both
boundaries; alternatives are tried in the order of the source pattern and
a greedy optional character backtracks when its trailing boundary
fails. -/
def matchAt (prev : Option Char) (cs : List Char) : Option Nat :=
  match cs with
  | [] => none
  | c :: rest =>
    if !boundaryB prev (some c) then none
    else if (c == '+' || c == '-' || c == '*' || c == '/' || c == '%')
        && boundaryB (some c) rest.head? then some 1
    else if isWordChar c then
      let run := (c :: rest).takeWhile isWordChar
      if boundaryB run.getLast? ((c :: rest).drop run.length).head? then some run.length
      else none
    else if c == '>' then
      match rest with
      | '=' :: rest2 =>
        if boundaryB (some '=') rest2.head? then some 2
        else if boundaryB (some '>') rest.head? then some 1 else none
      | _ => if boundaryB (some '>') rest.head? then some 1 else none
    else if c == '<' then
      match rest with
      | '=' :: rest2 =>
        if boundaryB (some '=') rest2.head? then some 2
        else if boundaryB (some '<') rest.head? then some 1 else none
      | _ => if boundaryB (some '<') rest.head? then some 1 else none
    else if c == '!' then
      match rest with
      | '=' :: rest2 => if boundaryB (some '=') rest2.head? then some 2 else none
      | _ => none
    else if c == '=' then
      match rest with
      | '=' :: rest2 => if boundaryB (some '=') rest2.head? then some 2 else none
      | _ => none
    else if c == '&' then
      match rest with
      | '&' :: rest2 => if boundaryB (some '&') rest2.head? then some 2 else none
      | _ => none
    else if c == '|' then
      match rest with
      | '|' :: rest2 => if boundaryB (some '|') rest2.head? then some 2 else none
      | _ => none
    else if c == '(' || c == ')' then
      if boundaryB (some c) rest.head? then some 1 else none
    else none

/-- Scanning loop of re.findall for the tokenizer pattern: at each
position try matchAt; on a match of length n emit those characters as a
token and resume after them, otherwise advance one character.  The
previous character is carried for the word-boundary test.  The fuel is
the remaining string length; each step consumes at least one character,
so the supplied fuel is never exhausted. -/
def tokenizeAux : Nat → Option Char → List Char → List (List Char)
  | 0, _, _ => []
  | Nat.succ fuel, prev, cs =>
    match cs with
    | [] => []
    | c :: rest =>
      match matchAt prev (c :: rest) with
      | some n =>
        let tok := (c :: rest).take n
        tok :: tokenizeAux fuel tok.getLast? ((c :: rest).drop n)
      | none => tokenizeAux fuel (some c) rest

/-- Token list produced for a specification string, embedding the
re.findall call in Tokenizer.init (src/python/parser.py lines 81-83). -/
def Tokenizer.tokenize (s : String) : List String :=
  (tokenizeAux s.data.length none s.data).map (fun cs => String.mk cs)

end TokenizerEmbedding

section AstAndEvaluator

/-- Record against which expressions are evaluated: a mapping from field
names to values, supplied whole by the storage layer.  Dictionaries are
modelled as association lists with the usual leftmost-key lookup. -/
abbrev Record := List (String × PyVal)

/-- Dictionary membership and retrieval combined, modelling the pair of
Python operations (name not in data) and data.get(name). -/
def lookupField (name : String) : Record → Option PyVal
  | [] => none
  | (k, v) :: rest => if k = name then some v else lookupField name rest

/-- Abstract syntax tree of the expression language, the four node kinds
of src/python/expression_evaluation/expressions.py: a constant Value, a
Field reference resolved at evaluation time, and Unary/Binary operator
applications that store the semantic callable chosen at construction
time, exactly as the Python classes store operator_func. -/
inductive Expr where
  | value (v : PyVal)
  | field (name : String)
  | unary (f : PyVal → Except PyErr PyVal) (operand : Expr)
  | bin (f : PyVal → PyVal → Except PyErr PyVal) (left : Expr) (right : Expr)

/-- Immediate sub-expressions carried by a node: the operand list that
evaluation will recurse into. -/
def Expr.subExprs : Expr → List Expr
  | .value _ => []
  | .field _ => []
  | .unary _ a => [a]
  | .bin _ l r => [l, r]

/-- Message of the KeyError raised by Field.evaluate
(src/python/expression_evaluation/expressions.py line 54). -/
def fieldNotFoundMsg (name : String) : String :=
  "Field " ++ squote ++ name ++ squote ++ " not found in data"

/-- Message of the ValueError that UnaryOperator.evaluate re-raises
(src/python/expression_evaluation/expressions.py line 27). -/
def unaryWrapMsg (e : PyErr) : String :=
  "Error in evaluating unary operator: " ++ describePyErr e

/-- Message of the ValueError that BinaryOperator.evaluate re-raises
(src/python/expression_evaluation/expressions.py line 46). -/
def binWrapMsg (e : PyErr) : String :=
  "Error in evaluating binary operator: " ++ describePyErr e

/-- Except-Exception-as-e wrapper of UnaryOperator.evaluate: any failure
of the guarded block is re-raised as a ValueError built from the original
message. -/
def wrapUnary : Except PyErr PyVal → Except PyErr PyVal
  | .ok v => .ok v
  | .error e => .error (.valueError (unaryWrapMsg e))

/-- Except-Exception-as-e wrapper of BinaryOperator.evaluate. -/
def wrapBin : Except PyErr PyVal → Except PyErr PyVal
  | .ok v => .ok v
  | .error e => .error (.valueError (binWrapMsg e))

/-- Evaluation of the package revision
(src/python/expression_evaluation/expressions.py): Value returns its
constant; Field raises KeyError when the name is absent, else returns the
stored value; UnaryOperator evaluates its operand then applies its
callable, re-raising any exception as a ValueError; BinaryOperator
evaluates left then right unconditionally, applies its callable, and
re-raises any exception of the block as a ValueError. -/
def Expr.evaluate : Expr → Record → Except PyErr PyVal
  | .value v, _ => .ok v
  | .field n, data =>
    match lookupField n data with
    | none => .error (.keyError (fieldNotFoundMsg n))
    | some v => .ok v
  | .unary f a, data => wrapUnary ((Expr.evaluate a data).bind f)
  | .bin f l r, data =>
    wrapBin ((Expr.evaluate l data).bind fun lv =>
      (Expr.evaluate r data).bind fun rv => f lv rv)

/-- Evaluation of the monolithic revision (src/python/inventory.py lines
51-86): identical dispatch except that Field.evaluate returns
data.get(field_name), i.e. the None placeholder when the field is absent
(lines 77-78), and the operator nodes have no try/except wrapper (lines
57-70). -/
def Expr.evaluateInv : Expr → Record → Except PyErr PyVal
  | .value v, _ => .ok v
  | .field n, data => .ok ((lookupField n data).getD .pynone)
  | .unary f a, data => (Expr.evaluateInv a data).bind f
  | .bin f l r, data =>
    (Expr.evaluateInv l data).bind fun lv =>
      (Expr.evaluateInv r data).bind fun rv => f lv rv

end AstAndEvaluator

section OperatorSemantics

/-- Numeric view of a value: Python numeric operators accept bool as the
integers 0 and 1 alongside numbers. -/
def toNumQ : PyVal → Option ℚ
  | .bool b => some (if b then 1 else 0)
  | .num q => some q
  | _ => none

/-- Integer view of a value for the bitwise and shift operators, which in
Python demand an int (or bool).  The embedding conflates int and float in
one Number kind, so an integer-valued number is accepted here; see the
modelling note at the top of the file. -/
def toIntQ : PyVal → Option ℤ
  | .bool b => some (if b then 1 else 0)
  | .num q => if q.den = 1 then some q.num else none
  | _ => none

/-- Truncation toward zero, Python int(x) on a number. -/
def pyTrunc (q : ℚ) : ℤ := if 0 ≤ q then ⌊q⌋ else ⌈q⌉

/-- Semantics of operator.add: numeric addition (bool promoted to int),
string concatenation, list concatenation; other pairings raise
TypeError. -/
def pyAdd : PyVal → PyVal → Except PyErr PyVal
  | .str a, .str b => .ok (.str (a ++ b))
  | .strlist a, .strlist b => .ok (.strlist (a ++ b))
  | v, w =>
    match toNumQ v, toNumQ w with
    | some a, some b => .ok (.num (a + b))
    | _, _ => .error (.typeError "unsupported operand type(s) for +")

/-- Semantics of operator.sub. -/
def pySub : PyVal → PyVal → Except PyErr PyVal := fun v w =>
  match toNumQ v, toNumQ w with
  | some a, some b => .ok (.num (a - b))
  | _, _ => .error (.typeError "unsupported operand type(s) for -")

/-- Semantics of operator.mul on numbers.  Python additionally repeats a
string or list by an integer count; no expression of this core reaches
that pairing and it is modelled as the TypeError branch. -/
def pyMul : PyVal → PyVal → Except PyErr PyVal := fun v w =>
  match toNumQ v, toNumQ w with
  | some a, some b => .ok (.num (a * b))
  | _, _ => .error (.typeError "unsupported operand type(s) for *")

/-- Semantics of operator.truediv: exact division, ZeroDivisionError on a
zero divisor.  Float results are modelled exactly as rationals. -/
def pyDiv : PyVal → PyVal → Except PyErr PyVal := fun v w =>
  match toNumQ v, toNumQ w with
  | some a, some b =>
    if b = 0 then .error (.zeroDivisionError "division by zero")
    else .ok (.num (a / b))
  | _, _ => .error (.typeError "unsupported operand type(s) for /")

/-- Semantics of operator.mod, Python floored modulo: the result has the
sign of the divisor. -/
def pyMod : PyVal → PyVal → Except PyErr PyVal := fun v w =>
  match toNumQ v, toNumQ w with
  | some a, some b =>
    if b = 0 then .error (.zeroDivisionError "modulo by zero")
    else .ok (.num (a - b * (⌊a / b⌋ : ℤ)))
  | _, _ => .error (.typeError "unsupported operand type(s) for %")

/-- Semantics of operator.and_, the function registered for both the
logical symbol and-and and the bitwise symbol ampersand: boolean AND on a
pair of booleans, bitwise AND on integers (bool promoted), TypeError
otherwise. -/
def pyAnd : PyVal → PyVal → Except PyErr PyVal
  | .bool a, .bool b => .ok (.bool (a && b))
  | v, w =>
    match toIntQ v, toIntQ w with
    | some a, some b => .ok (.num ((Int.land a b : ℤ) : ℚ))
    | _, _ => .error (.typeError "unsupported operand type(s) for &")

/-- Semantics of operator.or_, registered for both the logical symbol
or-or and the bitwise pipe. -/
def pyOr : PyVal → PyVal → Except PyErr PyVal
  | .bool a, .bool b => .ok (.bool (a || b))
  | v, w =>
    match toIntQ v, toIntQ w with
    | some a, some b => .ok (.num ((Int.lor a b : ℤ) : ℚ))
    | _, _ => .error (.typeError "unsupported operand type(s) for |")

/-- Semantics of operator.xor, the function the registry binds to the
tilde symbol: boolean exclusive-or on booleans, bitwise exclusive-or on
integers; it is a binary operator, not a bitwise complement. -/
def pyXor : PyVal → PyVal → Except PyErr PyVal
  | .bool a, .bool b => .ok (.bool (a != b))
  | v, w =>
    match toIntQ v, toIntQ w with
    | some a, some b => .ok (.num ((Int.xor a b : ℤ) : ℚ))
    | _, _ => .error (.typeError "unsupported operand type(s) for ^")

/-- Semantics of operator.not_ as stored in the binary operator table
under the bang symbol: the parser only ever applies table entries to two
operands, and calling the one-argument not_ with two arguments raises
TypeError before any boolean logic runs. -/
def pyNotBin : PyVal → PyVal → Except PyErr PyVal := fun _ _ =>
  .error (.typeError "not_ expected 1 argument, got 2")

/-- Semantics of operator.lt: numeric order with bool promoted, or
lexicographic string order; a string and a number do not compare. -/
def pyLt : PyVal → PyVal → Except PyErr PyVal
  | .str a, .str b => .ok (.bool (decide (a < b)))
  | v, w =>
    match toNumQ v, toNumQ w with
    | some a, some b => .ok (.bool (decide (a < b)))
    | _, _ => .error (.typeError "comparison not supported between operand types")

/-- Semantics of operator.le. -/
def pyLe : PyVal → PyVal → Except PyErr PyVal
  | .str a, .str b => .ok (.bool (decide (a ≤ b)))
  | v, w =>
    match toNumQ v, toNumQ w with
    | some a, some b => .ok (.bool (decide (a ≤ b)))
    | _, _ => .error (.typeError "comparison not supported between operand types")

/-- Semantics of operator.gt. -/
def pyGt : PyVal → PyVal → Except PyErr PyVal
  | .str a, .str b => .ok (.bool (decide (b < a)))
  | v, w =>
    match toNumQ v, toNumQ w with
    | some a, some b => .ok (.bool (decide (b < a)))
    | _, _ => .error (.typeError "comparison not supported between operand types")

/-- Semantics of operator.ge. -/
def pyGe : PyVal → PyVal → Except PyErr PyVal
  | .str a, .str b => .ok (.bool (decide (b ≤ a)))
  | v, w =>
    match toNumQ v, toNumQ w with
    | some a, some b => .ok (.bool (decide (b ≤ a)))
    | _, _ => .error (.typeError "comparison not supported between operand types")

/-- Python equality test underlying operator.eq: total, numeric across
bool and number, structural on strings and lists, false across different
kinds. -/
def pyEqB : PyVal → PyVal → Bool := fun v w =>
  match v, w with
  | .str a, .str b => a == b
  | .strlist a, .strlist b => a == b
  | .pynone, .pynone => true
  | _, _ =>
    match toNumQ v, toNumQ w with
    | some a, some b => a == b
    | _, _ => false

/-- Semantics of operator.eq: never raises. -/
def pyEqOp : PyVal → PyVal → Except PyErr PyVal := fun v w => .ok (.bool (pyEqB v w))

/-- Semantics of operator.ne. -/
def pyNe : PyVal → PyVal → Except PyErr PyVal := fun v w => .ok (.bool (!pyEqB v w))

/-- Semantics of the re.match entry under the tilde-equals symbol.  The
left operand is passed as the pattern and the right as the subject,
exactly as the registry wires re.match.  The regex engine is modelled for
literal patterns (an anchored prefix test) and the truthiness of the
returned match object is modelled as a boolean; no claim exercises this
entry. -/
def pyReMatch : PyVal → PyVal → Except PyErr PyVal
  | .str p, .str s => .ok (.bool (s.startsWith p))
  | _, _ => .error (.typeError "expected string or bytes-like object")

/-- Semantics of operator.is_.  CPython object identity is not observable
in a value model; identity is modelled as equality on the singleton-backed
kinds (booleans and None) and as false elsewhere.  No claim exercises
this entry. -/
def pyIsId : PyVal → PyVal → Except PyErr PyVal
  | .bool a, .bool b => .ok (.bool (a == b))
  | .pynone, .pynone => .ok (.bool true)
  | _, _ => .ok (.bool false)

/-- Semantics of operator.pow under the caret symbol: exponentiation.
Integer exponents are modelled exactly; a fractional exponent would
produce an irrational float outside the rational Number model and is
mapped to the TypeError branch, unexercised by any claim. -/
def pyPow : PyVal → PyVal → Except PyErr PyVal := fun v w =>
  match toNumQ v, toNumQ w with
  | some a, some b =>
    if b.den = 1 then
      if a = 0 ∧ b.num < 0 then
        .error (.zeroDivisionError "zero cannot be raised to a negative power")
      else .ok (.num (a ^ b.num))
    else .error (.typeError "non-integer exponents are outside the rational Number model")
  | _, _ => .error (.typeError "unsupported operand type(s) for **")

/-- Semantics of operator.lshift: integer left shift, ValueError on a
negative count. -/
def pyLshift : PyVal → PyVal → Except PyErr PyVal := fun v w =>
  match toIntQ v, toIntQ w with
  | some a, some n =>
    if n < 0 then .error (.valueError "negative shift count")
    else .ok (.num ((a * 2 ^ n.toNat : ℤ) : ℚ))
  | _, _ => .error (.typeError "unsupported operand type(s) for <<")

/-- Semantics of operator.rshift, the single function object the registry
stores under both the double and the triple greater-than symbols:
arithmetic right shift, i.e. floor division by a power of two, ValueError
on a negative count. -/
def pyRshift : PyVal → PyVal → Except PyErr PyVal := fun v w =>
  match toIntQ v, toIntQ w with
  | some a, some n =>
    if n < 0 then .error (.valueError "negative shift count")
    else .ok (.num ((Int.fdiv a (2 ^ n.toNat) : ℤ) : ℚ))
  | _, _ => .error (.typeError "unsupported operand type(s) for >>")

/-- Operator registry of the package revision, the operators dictionary
of src/python/expression_evaluation/factories.py lines 95-119: symbol to
semantic function.  The and-and and ampersand symbols share operator.and_,
or-or and pipe share operator.or_, tilde is operator.xor, caret is
operator.pow, and both double and triple greater-than are the same
operator.rshift.  This table has an is entry but, unlike the parser
precedence table, no isnt entry. -/
def OperatorFactory.operators : String → Option (PyVal → PyVal → Except PyErr PyVal)
  | "+" => some pyAdd
  | "-" => some pySub
  | "*" => some pyMul
  | "/" => some pyDiv
  | "%" => some pyMod
  | "&&" => some pyAnd
  | "||" => some pyOr
  | "!" => some pyNotBin
  | "<" => some pyLt
  | "<=" => some pyLe
  | ">" => some pyGt
  | ">=" => some pyGe
  | "==" => some pyEqOp
  | "!=" => some pyNe
  | "=~" => some pyReMatch
  | "is" => some pyIsId
  | "&" => some pyAnd
  | "|" => some pyOr
  | "~" => some pyXor
  | "^" => some pyPow
  | "<<" => some pyLshift
  | ">>" => some pyRshift
  | ">>>" => some pyRshift
  | _ => none

/-- OperatorFactory.create_operator (factories.py lines 121-125): look
the symbol up, build a BinaryOperator node storing the semantic function,
or raise ValueError for an unknown symbol. -/
def OperatorFactory.createOperator (sym : String) (left right : Expr) : Except PyErr Expr :=
  match OperatorFactory.operators sym with
  | some f => .ok (.bin f left right)
  | none => .error (.valueError ("Operator " ++ sym ++ " not supported"))

end OperatorSemantics

section ParserEmbedding

/-- Tokenizer cursor state: the token list produced by the regex scan and
the index of the current token (Tokenizer fields tokens and current). -/
structure TokState where
  tokens : List String
  current : Nat
deriving DecidableEq, Repr

/-- Tokenizer.peek: the current token, or none past the end (the Python
method returns None). -/
def TokState.peek (t : TokState) : Option String := t.tokens.get? t.current

/-- Tokenizer.next: advance the cursor when tokens remain. -/
def TokState.next (t : TokState) : TokState :=
  if t.current < t.tokens.length then { t with current := t.current + 1 } else t

/-- Tokenizer.has_tokens. -/
def TokState.hasTokens (t : TokState) : Bool := t.current < t.tokens.length

/-- Parser.get_precedence (src/python/parser.py lines 52-76): the fixed
precedence dictionary with default 0 for any symbol not listed. -/
def getPrecedence (sym : String) : Nat :=
  match sym with
  | "&&" => 1
  | "||" => 1
  | "!" => 2
  | "<" => 3
  | "<=" => 3
  | ">" => 3
  | ">=" => 3
  | "==" => 3
  | "!=" => 3
  | "=~" => 3
  | "is" => 3
  | "isnt" => 3
  | "&" => 4
  | "|" => 4
  | "~" => 4
  | "^" => 4
  | "<<" => 5
  | ">>" => 5
  | ">>>" => 5
  | "?" => 6
  | ":" => 6
  | _ => 0

/-- Python str.isnumeric restricted to ASCII: nonempty and all digits. -/
def pyIsNumeric (tok : String) : Bool := !tok.data.isEmpty && tok.data.all Char.isDigit

/-- Python str.isalnum restricted to ASCII. -/
def pyIsAlnum (tok : String) : Bool := !tok.data.isEmpty && tok.data.all Char.isAlphanum

/-- Anchored identifier regex of parse_operand: a letter or underscore
followed by letters, digits or underscores. -/
def isIdentTok (tok : String) : Bool :=
  match tok.data with
  | [] => false
  | c :: rest => (c.isAlpha || c == '_') && rest.all (fun d => d.isAlphanum || d == '_')

/-- Quote test of parse_operand: token.startswith on a double or single
quote. -/
def startsQuote (tok : String) : Bool :=
  match tok.data with
  | [] => false
  | c :: _ => c == '"' || c == squoteChar

/-- Python token.strip of both quote characters: remove leading and
trailing characters drawn from the two quote kinds. -/
def stripQuotes (tok : String) : String :=
  let isQ : Char → Bool := fun c => c == '"' || c == squoteChar
  String.mk ((((tok.data.dropWhile isQ).reverse).dropWhile isQ).reverse)

/-- Numeric value of a digit token, the float(token) conversion of
parse_operand for tokens that pass isnumeric. -/
def natOfDigits (l : List Char) : Nat := l.foldl (fun n c => n * 10 + (c.toNat - 48)) 0

/-- Recursion mode for the combined parser function: parse_operand,
parse_expression with its minimum precedence, or the while loop of
parse_expression carrying the accumulated left expression. -/
inductive PMode where
  | operand
  | expr (prec : Nat)
  | loop (prec : Nat) (left : Expr)

/-- Combined embedding of Parser.parse_expression and Parser.parse_operand
(src/python/parser.py lines 20-50), written as one function structurally
recursive on a fuel argument so that every run is computable by
reduction; the fuel supplied by Parser.parse is sufficient for every
terminating trace and the fuelExhausted branch is unreachable there.

Faithful details: parse_operand peeks at the current token but advances
the cursor only in the parenthesis branch, never for a literal or a field
(the source calls tokenizer.next only after a parenthesis), and when peek
returns None the comparison with the parenthesis string is False and the
startswith attribute access on None raises AttributeError.  The loop of
parse_expression consumes the peeked token as an operator whenever its
precedence is at least the minimum, parses the right side with minimum
one higher, and only then resolves the operator symbol through
OperatorFactory.create_operator. -/
def parseRun : Nat → PMode → TokState → Except PyErr (Expr × TokState)
  | 0, _, _ => .error .fuelExhausted
  | Nat.succ fuel, PMode.operand, st =>
    match st.peek with
    | none => .error (.attributeError "NoneType object has no attribute startswith")
    | some tok =>
      if tok = "(" then
        match parseRun fuel (PMode.expr 0) st.next with
        | .error e => .error e
        | .ok (e, st2) =>
          if st2.peek = some ")" then .ok (e, st2.next)
          else .error (.valueError "Missing closing parenthesis")
      else if startsQuote tok then .ok (.value (.str (stripQuotes tok)), st)
      else if pyIsNumeric tok then .ok (.value (.num ((natOfDigits tok.data : ℕ) : ℚ)), st)
      else if isIdentTok tok then .ok (.field tok, st)
      else if pyIsAlnum tok then .ok (.value (.str tok), st)
      else .error (.valueError ("Invalid token: " ++ tok))
  | Nat.succ fuel, PMode.expr prec, st =>
    match parseRun fuel PMode.operand st with
    | .error e => .error e
    | .ok (left, st1) => parseRun fuel (PMode.loop prec left) st1
  | Nat.succ fuel, PMode.loop prec left, st =>
    match st.peek with
    | none => .ok (left, st)
    | some tok =>
      if getPrecedence tok < prec then .ok (left, st)
      else
        match parseRun fuel (PMode.expr (getPrecedence tok + 1)) st.next with
        | .error e => .error e
        | .ok (right, st2) =>
          match OperatorFactory.createOperator tok left right with
          | .error e => .error e
          | .ok newLeft => parseRun fuel (PMode.loop prec newLeft) st2

/-- Fuel supplied to parseRun: generous bound in the token count, ample
for every trace the concrete theorems below evaluate. -/
def parseFuel (st : TokState) : Nat := st.tokens.length * 4 + 4

/-- Parser.parse (src/python/parser.py lines 14-18): run parse_expression
at minimum precedence 0, then raise ValueError when tokens remain
unconsumed. -/
def Parser.parse (st : TokState) : Except PyErr Expr :=
  match parseRun (parseFuel st) (PMode.expr 0) st with
  | .error e => .error e
  | .ok (e, st1) =>
    if st1.hasTokens then .error (.valueError "Invalid expression") else .ok e

/-- End-to-end parse of a specification string: tokenize with the regex
scanner, then parse from index 0 (Parser.init builds the Tokenizer and
parse starts it at current equal to 0). -/
def parseSpec (s : String) : Except PyErr Expr :=
  Parser.parse { tokens := Tokenizer.tokenize s, current := 0 }

end ParserEmbedding

section FunctionRegistry

/-- Unfolding model of the round function registered in
src/python/expression_evaluation/factories.py lines 33-35.  The module
level definition named round shadows the Python builtin, so the call in
its own body resolves to the function itself: the body of round(x) is
exactly round(x).  The Nat index counts permitted call unfoldings; the
function produces a value only if some unfolding depth returns one, and
since every unfolding is again a bare self-application with the same
argument, none does (in CPython the call stack overflows and
RecursionError is raised). -/
def roundUnfold : Nat → ℚ → Option ℚ
  | 0, _ => none
  | Nat.succ n, x => roundUnfold n x

/-- Python int(x) applied inside ceiling and floor: truncation for a
number, 0 or 1 for a bool, integer parsing for a digit string (ValueError
otherwise), TypeError for the remaining kinds.  Sign prefixes and
surrounding whitespace in strings are not modelled; no claim exercises
the string branch. -/
def pyIntConv : PyVal → Except PyErr ℤ
  | .num q => .ok (pyTrunc q)
  | .bool b => .ok (if b then 1 else 0)
  | .str s =>
    if pyIsNumeric s then .ok ((natOfDigits s.data : ℕ) : ℤ)
    else .error (.valueError ("invalid literal for int() with base 10: " ++ pyReprStr s))
  | _ => .error (.typeError "int() argument must be a string or a number")

/-- Semantics of ceiling from factories.py lines 37-39: int(x) when x
equals its truncation, otherwise int(x) + 1.  On a digit string the
equality test between the string and the integer is False, so the source
returns the parsed value plus one. -/
def ceilingSem : PyVal → Except PyErr PyVal := fun v =>
  match pyIntConv v with
  | .error e => .error e
  | .ok t =>
    if pyEqB v (.num (t : ℚ)) then .ok (.num (t : ℚ)) else .ok (.num ((t : ℚ) + 1))

/-- Semantics of floor from factories.py lines 41-43: int(x). -/
def floorSem : PyVal → Except PyErr PyVal := fun v =>
  match pyIntConv v with
  | .error e => .error e
  | .ok t => .ok (.num (t : ℚ))

/-- Python type name of a value, used in len error messages. -/
def pyTypeName : PyVal → String
  | .bool _ => "bool"
  | .num _ => "float"
  | .str _ => "str"
  | .pynone => "NoneType"
  | .strlist _ => "list"

/-- Semantics of size from factories.py lines 64-66: len(x). -/
def sizeSem : PyVal → Except PyErr PyVal
  | .str s => .ok (.num ((s.length : ℕ) : ℚ))
  | .strlist l => .ok (.num ((l.length : ℕ) : ℚ))
  | v => .error (.typeError ("object of type " ++ pyReprStr (pyTypeName v) ++ " has no len()"))

/-- Semantics shared by list_split (factories.py lines 76-78) and list
(lines 89-91) when called with one argument: the default separator makes
both return x.split on a comma; a non-string receiver has no split
attribute. -/
def splitCommaSem : PyVal → Except PyErr PyVal
  | .str s => .ok (.strlist (s.splitOn ","))
  | v => .error (.attributeError (pyReprStr (pyTypeName v) ++ " object has no attribute split"))

/-- TypeError message for a registered two-argument function invoked with
a single positional argument, as the single-operand call convention of
create_function always does. -/
def missing1Msg (fname argname : String) : String :=
  fname ++ "() missing 1 required positional argument: " ++ squote ++ argname ++ squote

/-- TypeError message for a registered three-argument function invoked
with a single positional argument. -/
def missing2Msg (fname arg1 arg2 : String) : String :=
  fname ++ "() missing 2 required positional arguments: " ++ squote ++ arg1 ++ squote
    ++ " and " ++ squote ++ arg2 ++ squote

/-- Function registry of the package revision, FunctionFactory.functions
as populated by the register decorators in factories.py lines 33-91,
under the calling convention the evaluator actually uses: every entry is
invoked with exactly one positional argument (create_function builds
UnaryOperator(args[0], function), and UnaryOperator.evaluate applies the
callable to the single operand result).  A function declared with two or
three required parameters therefore raises TypeError at the call, whatever
the operand value; round recurses on itself (see roundUnfold) which
CPython surfaces as RecursionError. -/
def FunctionFactory.functions : String → Option (PyVal → Except PyErr PyVal)
  | "round" => some (fun _ => .error .recursionError)
  | "ceiling" => some ceilingSem
  | "floor" => some floorSem
  | "startswith" => some (fun _ => .error (.typeError (missing1Msg "startswith" "y")))
  | "endswith" => some (fun _ => .error (.typeError (missing1Msg "endswith" "y")))
  | "glob" => some (fun _ => .error (.typeError (missing1Msg "glob" "y")))
  | "member" => some (fun _ => .error (.typeError (missing1Msg "member" "y")))
  | "size" => some sizeSem
  | "conjunction" => some (fun _ => .error (.typeError (missing1Msg "conjunction" "y")))
  | "keys" => some (fun _ => .error (.typeError (missing2Msg "keys" "y" "z")))
  | "list_split" => some splitCommaSem
  | "equals" => some (fun _ => .error (.typeError (missing1Msg "equals" "y")))
  | "extract_keys" => some (fun _ => .error (.typeError (missing2Msg "extract_keys" "y" "z")))
  | "list" => some splitCommaSem
  | _ => none

/-- FunctionFactory.create_function (factories.py lines 23-31): look the
name up and build UnaryOperator(args[0], function) — only the first
syntactic argument is stored in the node, whatever the length of args;
an unknown name raises ValueError, and an empty argument tuple makes the
args[0] subscript raise IndexError. -/
def FunctionFactory.createFunction (name : String) (args : List Expr) : Except PyErr Expr :=
  match FunctionFactory.functions name with
  | some f =>
    match args with
    | [] => .error (.indexError "tuple index out of range")
    | a :: _ => .ok (.unary f a)
  | none => .error (.valueError ("Function " ++ name ++ " not supported"))

end FunctionRegistry

section ConcordanceFacts

/-- Space-separated two-character operators are invisible to the
word-boundary regex: neither side of a blank-delimited and-and is a word
character, so no boundary exists and the operator is dropped from the
token stream. -/
theorem tokenize_drops_space_separated_and : Tokenizer.tokenize "a && b" = ["a", "b"] := rfl

/-- The same operator glued between identifiers does tokenize, because
the letters on each side provide the word boundaries. -/
theorem tokenize_keeps_glued_and : Tokenizer.tokenize "a&&b" = ["a", "&&", "b"] := rfl

/-- The monolithic revision of Field.evaluate (src/python/inventory.py
lines 77-78) silently yields the None placeholder for an absent field,
the behavior the specification records as a rejected prototype. -/
theorem evaluateInv_missing_field_returns_none :
    Expr.evaluateInv (.field "x") [] = .ok .pynone := rfl

/-- A lone numeric token also fails to parse: parse_operand returns the
literal without consuming it, the expression loop then consumes it as an
operator and asks for a further operand past the end of input, where peek
yields None and the attribute access raises. -/
theorem parse_single_number_fails :
    parseSpec "5" = .error (.attributeError "NoneType object has no attribute startswith") := rfl

end ConcordanceFacts

section ClaimTheorems

/-- Claim C1: parsing the string with a disjunction and a conjunction was
claimed to succeed, with AND binding tighter than OR, and to evaluate to
true against the record with a false, b true, c true.  The code falsifies
this: the word-boundary regex drops the space-separated or-or and and-and
operators, leaving only the three identifiers, and the parser then treats
the unconsumed identifier a as an operator symbol and raises ValueError,
so no AST exists and no evaluation happens.  The final conjunct records
that even the precedence table itself assigns the two logical operators
the same precedence, so AND does not bind tighter than OR anywhere in
this code. -/
theorem claim_C1_precedence_input_does_not_parse :
    Tokenizer.tokenize "a || b && c" = ["a", "b", "c"]
    ∧ parseSpec "a || b && c" = .error (.valueError "Operator a not supported")
    ∧ getPrecedence "&&" = getPrecedence "||" :=
  ⟨rfl, rfl, rfl⟩

/-- Claim C2: a quoted run containing a space was claimed to tokenize as
one String-literal token.  The code falsifies this: the regex has no
alternative for quote characters, so both quotes and the equality
operator are dropped and the quoted text splits into the two identifier
tokens in and maintenance. -/
theorem claim_C2_quoted_run_splits :
    Tokenizer.tokenize "status == \"in maintenance\"" = ["status", "in", "maintenance"] := rfl

/-- Claim C3: evaluating a Field reference for a name absent from the
record fails with the FieldNotFoundError analog (KeyError carrying the
field name) and never returns a value, in the package revision evaluator
that the specification designates as the adopted behavior. -/
theorem claim_C3_missing_field_raises (name : String) (data : Record)
    (h : lookupField name data = none) :
    Expr.evaluate (.field name) data = .error (.keyError (fieldNotFoundMsg name))
    ∧ ∀ v, Expr.evaluate (.field name) data ≠ .ok v := by
  refine ⟨?_, ?_⟩
  · simp [Expr.evaluate, h]
  · intro v
    simp [Expr.evaluate, h]

/-- Witness for claim C3 at the empty record and the field x. -/
theorem claim_C3_missing_field_raises_witness :
    lookupField "x" ([] : Record) = none
    ∧ Expr.evaluate (.field "x") [] = .error (.keyError (fieldNotFoundMsg "x")) :=
  ⟨rfl, (claim_C3_missing_field_raises "x" [] rfl).1⟩

/-- Claim C4: parse was claimed to fail with ParseError on the empty
token sequence.  The code falsifies the ParseError part: on empty input
peek returns None, the comparison with the parenthesis string is False,
and the startswith attribute access on None raises AttributeError, a
different failure kind from the ValueError family the parser uses for its
own ParseError conditions. -/
theorem claim_C4_empty_input_attribute_error :
    Tokenizer.tokenize "" = []
    ∧ parseSpec "" = .error (.attributeError "NoneType object has no attribute startswith") :=
  ⟨rfl, rfl⟩

/-- Claim C5: an unrecognized character was claimed to fail tokenization
with a TokenizeError carrying the offending text.  The code falsifies
this: tokenization is a total function that never raises, and the at-sign
is simply skipped by the findall scan, leaving the two identifiers as if
no operator had been written between them. -/
theorem claim_C5_unknown_char_silently_dropped :
    Tokenizer.tokenize "a @ b" = ["a", "b"] := rfl

/-- Claim C6: a function call node was claimed to carry all n syntactic
arguments and to apply the semantic function to all n evaluated values.
The code falsifies this: create_function stores only args[0] in the
UnaryOperator node, so the node built for equals with two arguments
carries a single sub-expression, and evaluation applies the registered
two-parameter function to one value, which raises TypeError — surfaced
by the evaluator wrapper as the generic ValueError. -/
theorem claim_C6_only_first_argument_bound :
    (FunctionFactory.createFunction "equals"
        [.value (.str "x"), .value (.str "y")]).map Expr.subExprs
      = .ok [.value (.str "x")]
    ∧ (FunctionFactory.createFunction "equals"
        [.value (.str "x"), .value (.str "y")]).map (fun e => e.evaluate [])
      = .ok (.error (.valueError (unaryWrapMsg (.typeError (missing1Msg "equals" "y"))))) :=
  ⟨rfl, rfl⟩

/-- Claim C7: the registry maps tilde to the exclusive-or semantic
(demonstrated on the boolean truth table and on integers, where six xor
three is five, not a complement), maps caret to exponentiation (two to
the three is eight, whereas xor of the same operands is one), and stores
for triple greater-than exactly the entry of double greater-than, so the
two operators agree on every pair of operand values. -/
theorem claim_C7_registry_nonstandard_mappings :
    (OperatorFactory.operators "~" = some pyXor
      ∧ (∀ b1 b2 : Bool, pyXor (.bool b1) (.bool b2) = .ok (.bool (b1 != b2)))
      ∧ pyXor (.num 6) (.num 3) = .ok (.num 5))
    ∧ (OperatorFactory.operators "^" = some pyPow
      ∧ (∀ (a : ℚ) (n : ℕ), pyPow (.num a) (.num n) = .ok (.num (a ^ n)))
      ∧ pyPow (.num 2) (.num 3) = .ok (.num 8)
      ∧ pyXor (.num 2) (.num 3) = .ok (.num 1))
    ∧ (OperatorFactory.operators ">>>" = OperatorFactory.operators ">>"
      ∧ ∀ v w : PyVal, (OperatorFactory.operators ">>>").map (fun f => f v w)
          = (OperatorFactory.operators ">>").map (fun f => f v w)) := by
  have hx63 : Int.xor 6 3 = 5 := by decide
  have hx23 : Int.xor 2 3 = 1 := by decide
  refine ⟨⟨rfl, ?_, by norm_num [pyXor, toIntQ, hx63]⟩,
    ⟨rfl, ?_, by norm_num [pyPow, toNumQ], by norm_num [pyXor, toIntQ, hx23]⟩,
    rfl, fun v w => rfl⟩
  · intro b1 b2
    cases b1 <;> cases b2 <;> rfl
  · intro a n
    have h1 : ((n : ℚ)).den = 1 := Rat.den_natCast n
    have h2 : ¬(a = 0 ∧ ((n : ℚ)).num < 0) := by
      rintro ⟨_, hneg⟩
      rw [Rat.num_natCast] at hneg
      exact absurd hneg (Int.not_lt.mpr (Int.natCast_nonneg n))
    simp [pyPow, toNumQ, h1, h2, Rat.num_natCast, zpow_natCast]

/-- Claim C8: a BinaryOperator node evaluates its left operand first,
then its right operand unconditionally, and only then applies the
semantic function: an error on the left surfaces (wrapped) whatever the
right would do, an error on the right surfaces even when the left already
produced a value that a short-circuiting operator would have stopped at,
and when both succeed the semantic function receives both values. -/
theorem claim_C8_binary_eager_left_then_right
    (f : PyVal → PyVal → Except PyErr PyVal) (l r : Expr) (data : Record) :
    (∀ e1, Expr.evaluate l data = .error e1 →
      Expr.evaluate (.bin f l r) data = .error (.valueError (binWrapMsg e1)))
    ∧ (∀ lv e2, Expr.evaluate l data = .ok lv → Expr.evaluate r data = .error e2 →
      Expr.evaluate (.bin f l r) data = .error (.valueError (binWrapMsg e2)))
    ∧ (∀ lv rv, Expr.evaluate l data = .ok lv → Expr.evaluate r data = .ok rv →
      Expr.evaluate (.bin f l r) data = wrapBin (f lv rv)) := by
  refine ⟨?_, ?_, ?_⟩
  · intro e1 h1
    simp [Expr.evaluate, h1, Except.bind, wrapBin]
  · intro lv e2 h1 h2
    simp [Expr.evaluate, h1, h2, Except.bind, wrapBin]
  · intro lv rv h1 h2
    simp [Expr.evaluate, h1, h2, Except.bind]

/-- Witness for claim C8: with the logical-AND semantic, a false left
operand does not short-circuit — the missing field on the right is still
evaluated and its failure aborts the evaluation. -/
theorem claim_C8_binary_eager_left_then_right_witness :
    Expr.evaluate (.bin pyAnd (.value (.bool false)) (.field "x")) []
      = .error (.valueError (binWrapMsg (.keyError (fieldNotFoundMsg "x")))) :=
  (claim_C8_binary_eager_left_then_right pyAnd (.value (.bool false)) (.field "x") []).2.1
    (.bool false) (.keyError (fieldNotFoundMsg "x")) rfl rfl

/-- Claim C9: the semantic registered under round was claimed to
terminate and return its argument rounded to the nearest integer.  The
code falsifies this: the module-level definition shadows the Python
builtin of the same name, so the body is a bare self-application and no
unfolding depth produces a value — CPython surfaces the unbounded
recursion as RecursionError, which is what the registry entry models. -/
theorem claim_C9_round_self_recursion_never_returns :
    (∀ (fuel : ℕ) (x : ℚ), roundUnfold fuel x = none)
    ∧ FunctionFactory.functions "round" = some (fun _ => .error .recursionError) := by
  refine ⟨?_, rfl⟩
  intro fuel
  induction fuel with
  | zero => intro x; rfl
  | succ n ih => intro x; exact ih x

/-- Claim C10: any exception raised while evaluating the operand(s) of a
Unary or Binary operator node, or while applying its semantic function,
is caught and re-raised as the generic ValueError wrapper; consequently
every error result of such a node is a ValueError, and in particular a
missing-field KeyError arising inside an operand never reaches the caller
under its own kind. -/
theorem claim_C10_operator_node_errors_become_valueerror
    (f1 : PyVal → Except PyErr PyVal) (f2 : PyVal → PyVal → Except PyErr PyVal)
    (a l r : Expr) (data : Record) :
    (∀ e, (Expr.evaluate a data).bind f1 = .error e →
      Expr.evaluate (.unary f1 a) data = .error (.valueError (unaryWrapMsg e)))
    ∧ (∀ e, ((Expr.evaluate l data).bind fun lv =>
          (Expr.evaluate r data).bind fun rv => f2 lv rv) = .error e →
      Expr.evaluate (.bin f2 l r) data = .error (.valueError (binWrapMsg e)))
    ∧ (∀ e, Expr.evaluate (.unary f1 a) data = .error e → ∃ m, e = .valueError m)
    ∧ (∀ e, Expr.evaluate (.bin f2 l r) data = .error e → ∃ m, e = .valueError m) := by
  refine ⟨?_, ?_, ?_, ?_⟩
  · intro e h
    simp [Expr.evaluate, h, wrapUnary]
  · intro e h
    simp [Expr.evaluate, h, wrapBin]
  · intro e h
    rw [show Expr.evaluate (.unary f1 a) data = wrapUnary ((Expr.evaluate a data).bind f1) from rfl] at h
    cases hinner : (Expr.evaluate a data).bind f1 with
    | ok v => rw [hinner] at h; simp [wrapUnary] at h
    | error e2 =>
      rw [hinner] at h
      simp only [wrapUnary, Except.error.injEq] at h
      exact ⟨unaryWrapMsg e2, h.symm ▸ rfl⟩
  · intro e h
    rw [show Expr.evaluate (.bin f2 l r) data
      = wrapBin ((Expr.evaluate l data).bind fun lv =>
          (Expr.evaluate r data).bind fun rv => f2 lv rv) from rfl] at h
    cases hinner : ((Expr.evaluate l data).bind fun lv =>
        (Expr.evaluate r data).bind fun rv => f2 lv rv) with
    | ok v => rw [hinner] at h; simp [wrapBin] at h
    | error e2 =>
      rw [hinner] at h
      simp only [wrapBin, Except.error.injEq] at h
      exact ⟨binWrapMsg e2, h.symm ▸ rfl⟩

/-- Witness for claim C10: the KeyError for the missing field x inside a
unary operand reaches the caller as the generic ValueError wrapper. -/
theorem claim_C10_operator_node_errors_become_valueerror_witness :
    Expr.evaluate (.unary (fun v => .ok v) (.field "x")) []
      = .error (.valueError (unaryWrapMsg (.keyError (fieldNotFoundMsg "x")))) :=
  (claim_C10_operator_node_errors_become_valueerror (fun v => .ok v) pyAnd
    (.field "x") (.field "x") (.field "x") []).1
    (.keyError (fieldNotFoundMsg "x")) rfl

end ClaimTheorems
